import Mathlib

/-!
Verification of the guideline-matching and retrieval-augmented chat pipeline
of the biotech regulatory-compliance assistant.

The development shallowly embeds the relevant source functions:

* `handleSend` — the chat-turn handler of the main `Chatbot` component
  (src/frontend/src/components/Chatbot.js, lines 99-154).  React state is
  passed explicitly as a `ChatState`; the outcome of the single
  `fetch` call to `http://localhost:8000/chat` is an explicit
  `FetchOutcome` parameter; the function returns the successor state
  together with the list of request bodies issued during the invocation.
* `questionnaireEffect` — the effect that installs the welcome or
  questionnaire-summary message (Chatbot.js, lines 49-88).
* `handleSendUpload` — the chat-turn handler of the attachment-capable
  `Chatbot` variant (Chatbot.js, lines 994-1058).
* `handleUpload` — the document-upload handler of `DocumentManager`
  (src/unnamed/part_004, lines 56-125).
* `matchGuidelines` — the Guideline Matcher.  Its backend service is not
  part of the repository source (only its HTTP callers are), so it is
  modelled from the specification text; see its doc comment.

Timestamps (`new Date().toISOString()`) are passed in as explicit string
parameters; none of the verified properties depend on their value.
-/

namespace BiotechReg

/-! ## Data model -/

/-- QuestionnaireAnswers: the structured questionnaire record
{intended_purpose, life_threatening, user_type, requires_sterilization,
body_contact_duration} submitted by the form and forwarded in chat
requests (field names as in the source). -/
structure QuestionnaireAnswers where
  intended_purpose : String
  life_threatening : Bool
  user_type : String
  requires_sterilization : Bool
  body_contact_duration : String
deriving Repr, DecidableEq

/-- A source entry of a chat response: the backend may return either a bare
string or a structured object (Chatbot.js lines 133-138 normalise both). -/
inductive RawSource where
  | str (s : String)
  | obj (title : Option String) (content : String) (jurisdiction : Option String)
deriving Repr, DecidableEq

/-- A normalised source entry as stored on a bot message. -/
structure FormattedSource where
  title : Option String
  content : String
  jurisdiction : Option String
deriving Repr, DecidableEq

/-- Chatbot.js lines 133-138: a bare string source becomes `{ content: source }`;
an object source is kept as is. -/
def formatSource : RawSource → FormattedSource
  | .str s => ⟨none, s, none⟩
  | .obj t c j => ⟨t, c, j⟩

/-- A conversation-log entry of the main Chatbot component: `type` is one of
"user", "bot", "system"; `sources` is empty unless set on a bot message. -/
structure ChatMsg where
  type : String
  content : String
  timestamp : String
  sources : List FormattedSource
deriving Repr, DecidableEq

/-- The React state of the main Chatbot component that `handleSend` reads and
writes: the message log, the input field, the loading flag and the snackbar
error, plus the two props `questionnaireData` and `documents` (for the
latter only the length is ever used, so documents are kept as names). -/
structure ChatState where
  messages : List ChatMsg
  newMessage : String
  isLoading : Bool
  error : Option String
  questionnaireData : Option QuestionnaireAnswers
  documents : List String
deriving Repr, DecidableEq

/-- The JSON body of the `POST /chat` request issued by `handleSend`
(Chatbot.js lines 119-123), field names and order as in the object literal. -/
structure ChatRequestBody where
  message : String
  questionnaire_data : Option QuestionnaireAnswers
  has_uploaded_documents : Bool
deriving Repr, DecidableEq

/-- The parsed JSON of a successful `/chat` response. -/
structure ChatResponseData where
  response : String
  sources : Option (List RawSource)
deriving Repr, DecidableEq

/-- Outcome of the single fetch of a chat turn: the promise rejects
(network error), the response is not ok (`throw new Error(...)`), or it
succeeds with parsed data. -/
inductive FetchOutcome where
  | networkError
  | httpError
  | success (data : ChatResponseData)
deriving Repr, DecidableEq

/-- A chat turn fails when the request errors or returns a non-ok status. -/
def FetchOutcome.failed : FetchOutcome → Bool
  | .networkError => true
  | .httpError => true
  | .success _ => false

/-! ## String helpers

JavaScript string primitives used by the handlers, implemented by structural
recursion on the character list so that concrete instances evaluate. -/

/-- The whitespace characters relevant to `String.prototype.trim` for the
inputs at issue (space, tab, line feed, carriage return, vertical tab,
form feed). -/
def isJsWhitespace (c : Char) : Bool :=
  c = ' ' || c = '\t' || c = '\n' || c = '\r' || c = '\x0b' || c = '\x0c'

/-- JavaScript `s.trim()`: strip leading and trailing whitespace. -/
def jsTrim (s : String) : String :=
  ⟨((s.toList.dropWhile isJsWhitespace).reverse.dropWhile isJsWhitespace).reverse⟩

/-- JavaScript `s.toLowerCase()` (ASCII case mapping suffices here). -/
def strToLower (s : String) : String :=
  ⟨s.toList.map Char.toLower⟩

/-! ## The main chat-turn handler (Chatbot.js lines 99-154) -/

/-- The request body assembled for the fetch (Chatbot.js lines 119-123):
`{ message: newMessage, questionnaire_data: questionnaireData,
has_uploaded_documents: documents.length > 0 }`. -/
def assembleRequest (s : ChatState) : ChatRequestBody :=
  ⟨s.newMessage, s.questionnaireData, decide (s.documents.length > 0)⟩

/-- The optimistic user message appended before the fetch
(Chatbot.js lines 102-106). -/
def userMessageOf (s : ChatState) (now : String) : ChatMsg :=
  ⟨"user", s.newMessage, now, []⟩

/-- The bot message appended on a successful response
(Chatbot.js lines 140-145), with sources normalised by `formatSource`
and `data.sources?.map(...) || []` defaulting to the empty list. -/
def botMessageOf (data : ChatResponseData) (now : String) : ChatMsg :=
  ⟨"bot", data.response, now, (data.sources.getD []).map formatSource⟩

/-- The snackbar text set in the catch block (Chatbot.js line 150). -/
def chatErrorText : String := "Failed to get response from the chatbot"

/-- Shallow embedding of `handleSend` (Chatbot.js lines 99-154).  Returns
the successor component state and the list of `POST /chat` request bodies
issued during the invocation.  The guard `if (!newMessage.trim()) return;`
becomes the empty-trim test; on failure the catch block only sets the
snackbar error, appending nothing to the log. -/
def handleSend (s : ChatState) (now : String) (outcome : FetchOutcome) :
    ChatState × List ChatRequestBody :=
  if jsTrim s.newMessage = "" then (s, [])
  else
    let userMsg := userMessageOf s now
    let req := assembleRequest s
    match outcome with
    | .success data =>
        (⟨s.messages ++ [userMsg, botMessageOf data now], "", false, none,
          s.questionnaireData, s.documents⟩, [req])
    | .networkError =>
        (⟨s.messages ++ [userMsg], "", false, some chatErrorText,
          s.questionnaireData, s.documents⟩, [req])
    | .httpError =>
        (⟨s.messages ++ [userMsg], "", false, some chatErrorText,
          s.questionnaireData, s.documents⟩, [req])

/-! ## The questionnaire/welcome effect (Chatbot.js lines 49-88)

On each render the effect either installs the welcome message into an empty
log, or — when questionnaire data is present and no summary message exists
yet — replaces the whole log with a single system summary message (the
source comment reads "Clear previous messages when questionnaire is
updated"). -/

/-- `pat.isInfixList l` decides whether `pat` occurs as a contiguous run of
`l`; this models the JavaScript `String.prototype.includes`. -/
def infixList (pat : List Char) : List Char → Bool
  | [] => pat.isEmpty
  | c :: t => pat.isPrefixOf (c :: t) || infixList pat t

/-- JavaScript `s.includes(pat)` on the underlying character lists. -/
def strIncludes (s pat : String) : Bool :=
  infixList pat.toList s.toList

/-- The welcome message content (Chatbot.js lines 55-59). -/
def welcomeText : String :=
  "Welcome! I can help you understand regulatory requirements for your biotech product. You can:\n\n" ++
  "1. Fill out the questionnaire to get personalized guidance\n" ++
  "2. Upload relevant documents for more specific answers (optional)\n" ++
  "3. Ask questions about regulations and compliance\n\n" ++
  "How can I assist you today?"

/-- The questionnaire summary content (Chatbot.js lines 74-83). -/
def summaryText (qa : QuestionnaireAnswers) (ndocs : Nat) : String :=
  "Thank you for providing your information. I understand that:\n\n" ++
  "• Your product purpose: " ++ qa.intended_purpose ++ "\n" ++
  "• Life-threatening use: " ++ (if qa.life_threatening then "Yes" else "No") ++ "\n" ++
  "• Intended users: " ++ qa.user_type ++ "\n" ++
  "• Requires sterilization: " ++ (if qa.requires_sterilization then "Yes" else "No") ++ "\n" ++
  "• Body contact duration: " ++ qa.body_contact_duration ++ "\n\n" ++
  (if ndocs > 0
    then "I will also consider your " ++ toString ndocs ++ " uploaded document(s) when providing answers."
    else "You can upload relevant documents to get more specific answers (optional).") ++ "\n\n" ++
  "What would you like to know about the regulatory requirements for your product?"

/-- Chatbot.js line 68: a previous summary exists when some system message
contains the marker sentence. -/
def hasSummary (messages : List ChatMsg) : Bool :=
  messages.any (fun m =>
    m.type = "system" && strIncludes m.content "Thank you for providing your information.")

/-- Shallow embedding of the effect of Chatbot.js lines 49-88, returning
the new message log.  `questionnaireData = none` models both a null prop and
an empty object (`Object.keys(...).length === 0`). -/
def questionnaireEffect (questionnaireData : Option QuestionnaireAnswers)
    (documents : List String) (messages : List ChatMsg) (now : String) :
    List ChatMsg :=
  if messages.length = 0 && questionnaireData.isNone then
    [⟨"system", welcomeText, now, []⟩]
  else
    match questionnaireData with
    | some qa =>
        if hasSummary messages then messages
        else [⟨"system", summaryText qa documents.length, now, []⟩]
    | none => messages

/-! ## The attachment-capable chat-turn handler (Chatbot.js lines 994-1058)

The second Chatbot variant keeps messages as `{text, isUser, timestamp, ...}`
records, supports file attachments, and posts to `/api/chat/`. -/

/-- A message of the attachment-capable Chatbot variant. -/
structure UploadChatMsg where
  text : String
  isUser : Bool
  isError : Bool
  timestamp : String
  attachments : Option (List String)
  processedAttachments : Option (List String)
deriving Repr, DecidableEq

/-- The state of the attachment-capable Chatbot variant read and written by
its `handleSend`: message log, input field, typing flag, the selected file
names and the attachment ids returned by the upload endpoint. -/
structure UploadChatState where
  messages : List UploadChatMsg
  input : String
  isTyping : Bool
  files : List String
  attachmentIds : List String
deriving Repr, DecidableEq

/-- The JSON body of the `POST /api/chat/` request (Chatbot.js lines
1020-1024): `{ message, context: [], attachment_ids }`. -/
structure UploadChatRequestBody where
  message : String
  context : List String
  attachment_ids : List String
deriving Repr, DecidableEq

/-- The parsed JSON of a successful `/api/chat/` response. -/
structure UploadChatResponse where
  response : String
  processed_attachments : Option (List String)
deriving Repr, DecidableEq

/-- Outcome of the fetch in the attachment-capable variant: a rejected
promise carries its error message; a non-ok response carries the optional
`detail` field of its JSON body. -/
inductive UploadFetchOutcome where
  | networkError (message : String)
  | httpError (detail : Option String)
  | success (data : UploadChatResponse)
deriving Repr, DecidableEq

/-- Whether the fetch of the attachment-capable variant failed. -/
def UploadFetchOutcome.failed : UploadFetchOutcome → Bool
  | .networkError _ => true
  | .httpError _ => true
  | .success _ => false

/-- The synthetic user text substituted for an empty input when files are
attached (Chatbot.js line 1004). -/
def analyzeAttachmentText : String := "Please analyze the attached document."

/-- The user message text of a turn: `input.trim() || "Please analyze the
attached document."`. -/
def uploadUserText (s : UploadChatState) : String :=
  if jsTrim s.input = "" then analyzeAttachmentText else jsTrim s.input

/-- The optimistic user message of the attachment-capable variant
(Chatbot.js lines 1003-1008). -/
def uploadUserMessageOf (s : UploadChatState) (now : String) : UploadChatMsg :=
  ⟨uploadUserText s, true, false, now, some s.files, none⟩

/-- The error text appended in the catch block: for a non-ok response the
thrown error carries `errorData.detail` with the fallback text "Failed to get response from AI"
(Chatbot.js line 1029); for a rejected fetch, the message of the rejection. -/
def uploadErrorText : UploadFetchOutcome → String
  | .networkError m => m
  | .httpError d => d.getD "Failed to get response from AI"
  | .success _ => ""

/-- Shallow embedding of `handleSend` of the attachment-capable Chatbot
variant (Chatbot.js lines 994-1058).  Returns the successor state and the
list of issued `POST /api/chat/` bodies.  The two guards — empty input with
no files, and files still uploading (`files.length > attachmentIds.length`)
— return without issuing a request; on success files and attachment ids are
cleared; on failure an error-flagged non-user message is appended. -/
def handleSendUpload (s : UploadChatState) (now : String)
    (outcome : UploadFetchOutcome) :
    UploadChatState × List UploadChatRequestBody :=
  if jsTrim s.input = "" && s.files.isEmpty then (s, [])
  else if s.attachmentIds.length < s.files.length then (s, [])
  else
    let userMsg := uploadUserMessageOf s now
    let req : UploadChatRequestBody := ⟨uploadUserText s, [], s.attachmentIds⟩
    match outcome with
    | .success data =>
        (⟨s.messages ++ [userMsg, ⟨data.response, false, false, now, none, data.processed_attachments⟩],
          "", false, [], []⟩, [req])
    | .networkError m =>
        (⟨s.messages ++ [userMsg, ⟨m, false, true, now, none, none⟩],
          "", false, s.files, s.attachmentIds⟩, [req])
    | .httpError d =>
        (⟨s.messages ++ [userMsg, ⟨d.getD "Failed to get response from AI", false, true, now, none, none⟩],
          "", false, s.files, s.attachmentIds⟩, [req])

/-! ## The document-upload handler (src/unnamed/part_004, lines 56-125) -/

/-- The file selected in the upload form: its name and its size in bytes. -/
structure FileInfo where
  name : String
  size : Nat
deriving Repr, DecidableEq

/-- The upload form state of `DocumentManager`. -/
structure UploadForm where
  title : String
  description : String
  file : Option FileInfo
deriving Repr, DecidableEq

/-- The accepted extensions (part_004 line 70). -/
def allowedTypes : List String := [".pdf", ".doc", ".docx", ".txt"]

/-- The maximum accepted size in bytes: `10 * 1024 * 1024` (part_004 line 64). -/
def maxFileSize : Nat := 10 * 1024 * 1024

/-- Index of the last occurrence of the dot character in a character list,
if any; models the JavaScript lastIndexOf with `none` for `-1`. -/
def lastDotIndex : List Char → Option Nat
  | [] => none
  | c :: t =>
    match lastDotIndex t with
    | some i => some (i + 1)
    | none => if c = '.' then some 0 else none

/-- The lowercased file name sliced from the last-dot index onward
(part_004 line 71): the lowercased name from the last dot onward; when there
is no dot, `slice(-1)` yields the last character of the lowercased name. -/
def fileExtension (name : String) : String :=
  let low := strToLower name
  match lastDotIndex name.toList with
  | some i => ⟨low.toList.drop i⟩
  | none => ⟨low.toList.drop (low.toList.length - 1)⟩

/-- The outcome of an upload attempt as surfaced by `DocumentManager`. -/
inductive UploadResult where
  | noFileSelected
  | fileTooLarge
  | invalidType
  | uploadFailed (detail : String)
  | uploaded
deriving Repr, DecidableEq

/-- Outcome of the `POST /user-documents/upload` fetch, when it is issued. -/
inductive UploadResponse where
  | httpOk
  | httpErrorDetail (detail : String)
  | networkError (message : String)
deriving Repr, DecidableEq

/-- Shallow embedding of `handleUpload` (part_004 lines 56-125).  Returns
the surfaced outcome and whether the upload POST — the attachment store
`put` — was issued.  The guards run in source order: missing file, size
above 10 MB, extension not among the accepted types; only past all three is
the fetch issued. -/
def handleUpload (form : UploadForm) (resp : UploadResponse) :
    UploadResult × Bool :=
  match form.file with
  | none => (.noFileSelected, false)
  | some f =>
    if f.size > maxFileSize then (.fileTooLarge, false)
    else if !(allowedTypes.contains (fileExtension f.name)) then (.invalidType, false)
    else
      match resp with
      | .httpOk => (.uploaded, true)
      | .httpErrorDetail d => (.uploadFailed d, true)
      | .networkError m => (.uploadFailed m, true)

/-! ## The Guideline Matcher

Modelled from the spec: the matcher service behind `POST /questionnaire` is
not present in the repository source (only its HTTP callers are), so the
definitions below follow the specification text of section 4.1: all fields
required (else `ValidationError`); `NoCorpusAvailable` on an empty document
store; otherwise a semantic query string is built by concatenating the
structured fields, the corpus is scored by the similarity collaborator
(passed in as `score`), and the top-K documents are returned ordered by
descending relevance score with ties broken by the insertion order of the
underlying retrieval call. -/

/-- A regulatory guideline document of the corpus. -/
structure GuidelineDocument where
  id : String
  title : String
  content : String
  source : String
deriving Repr, DecidableEq

/-- A guideline document together with its relevance score. -/
structure ScoredDoc where
  doc : GuidelineDocument
  relevance_score : Rat
deriving Repr, DecidableEq

/-- Modelled from the spec: the error taxonomy of the matcher (section 7). -/
inductive MatcherError where
  | validationError
  | noCorpusAvailable
deriving Repr, DecidableEq

/-- Modelled from the spec: all questionnaire fields are required; the
request fails with `ValidationError` if any is missing/empty. -/
def validQA (qa : QuestionnaireAnswers) : Bool :=
  qa.intended_purpose != "" && qa.user_type != "" && qa.body_contact_duration != ""

/-- Modelled from the spec: the semantic query string is a concatenation of
the structured fields (exact phrasing is not load-bearing). -/
def buildQuery (qa : QuestionnaireAnswers) : String :=
  qa.intended_purpose ++ " " ++
  (if qa.life_threatening then "life-threatening" else "not life-threatening") ++ " " ++
  qa.user_type ++ " " ++
  (if qa.requires_sterilization then "requires sterilization" else "no sterilization") ++ " " ++
  qa.body_contact_duration

/-- Stable descending insertion: `x` is placed before the first element
whose score is less than or equal to that of `x`, so equal scores keep their
original relative order. -/
def insertByScore (x : ScoredDoc) : List ScoredDoc → List ScoredDoc
  | [] => [x]
  | y :: ys =>
    if x.relevance_score < y.relevance_score then y :: insertByScore x ys
    else x :: y :: ys

/-- Stable insertion sort by descending relevance score. -/
def sortByScoreDesc : List ScoredDoc → List ScoredDoc
  | [] => []
  | x :: xs => insertByScore x (sortByScoreDesc xs)

/-- Modelled from the spec: K is a configuration option, default 5. -/
def defaultK : Nat := 5

/-- Modelled from the spec (section 4.1): the Guideline Matcher.  The
similarity collaborator is the function `score`; the retrieval call scores
the corpus in store order, and the matcher returns the top `k` documents by
descending relevance score, ties broken by that insertion order. -/
def matchGuidelines (k : Nat) (score : String → GuidelineDocument → Rat)
    (corpus : List GuidelineDocument) (qa : QuestionnaireAnswers) :
    Except MatcherError (List ScoredDoc) :=
  if !(validQA qa) then .error .validationError
  else if corpus.isEmpty then .error .noCorpusAvailable
  else .ok ((sortByScoreDesc (corpus.map (fun d => ⟨d, score (buildQuery qa) d⟩))).take k)

/-! ## JSON serialization of the chat request body

Models `JSON.stringify` on the object literal of Chatbot.js lines 119-123:
keys in literal order, the standard escapes for quote, backslash and
newline. -/

/-- JSON escape of one character (quote, backslash, newline; other
characters unchanged — the payloads at issue contain no further
control characters). -/
def escChar (c : Char) : String :=
  if c = '"' then "\\\""
  else if c = '\\' then "\\\\"
  else if c = '\n' then "\\n"
  else String.singleton c

/-- JSON string literal. -/
def jsonStr (s : String) : String :=
  "\"" ++ String.join (s.toList.map escChar) ++ "\""

/-- JSON boolean literal. -/
def jsonBool (b : Bool) : String := if b then "true" else "false"

/-- JSON value of the `questionnaire_data` field: `null` or the object with
the five questionnaire keys in declaration order. -/
def jsonQA : Option QuestionnaireAnswers → String
  | none => "null"
  | some qa =>
      "\x7b\"intended_purpose\":" ++ jsonStr qa.intended_purpose ++
      ",\"life_threatening\":" ++ jsonBool qa.life_threatening ++
      ",\"user_type\":" ++ jsonStr qa.user_type ++
      ",\"requires_sterilization\":" ++ jsonBool qa.requires_sterilization ++
      ",\"body_contact_duration\":" ++ jsonStr qa.body_contact_duration ++ "\x7d"

/-- The serialized `POST /chat` body, byte-for-byte. -/
def jsonBody (b : ChatRequestBody) : String :=
  "\x7b\"message\":" ++ jsonStr b.message ++
  ",\"questionnaire_data\":" ++ jsonQA b.questionnaire_data ++
  ",\"has_uploaded_documents\":" ++ jsonBool b.has_uploaded_documents ++ "\x7d"

/-! ## Concrete example values used in witnesses and counterexamples -/

/-- The questionnaire answers of end-to-end scenario A of the spec. -/
def qaExample : QuestionnaireAnswers :=
  ⟨"Implantable", true, "Patients", true, "long_term"⟩

/-- A state whose input field holds only whitespace. -/
def blankInputState : ChatState := ⟨[], "   ", false, none, none, []⟩

/-- A state with a pending nonempty message. -/
def pendingState : ChatState := ⟨[], "hello", false, none, some qaExample, []⟩

/-- A user message already present in the log before the questionnaire
effect runs. -/
def priorUserMsg : ChatMsg := ⟨"user", "hi", "t0", []⟩

/-! ## Claim theorems -/

/-- C3: for every message that is empty after trimming whitespace, the chat
turn stops at the guard before any model call: `handleSend` issues zero
requests to the completion interface and returns the state unchanged. -/
theorem emptyMessage_no_call_no_state_change (s : ChatState) (now : String)
    (o : FetchOutcome) (h : jsTrim s.newMessage = "") :
    handleSend s now o = (s, []) := by
  simp [handleSend, h]

theorem emptyMessage_no_call_no_state_change_witness :
    jsTrim blankInputState.newMessage = ""
    ∧ handleSend blankInputState "t0" .networkError = (blankInputState, []) :=
  ⟨by decide,
   emptyMessage_no_call_no_state_change blankInputState "t0" .networkError (by decide)⟩

/-- C8: at most one outbound model call per chat turn, in both chat
components, and no retry inside the component: the list of issued requests
has length at most one and does not depend on the outcome of the call, so
a failed request is never re-issued within the invocation. -/
theorem at_most_one_model_call (s : ChatState) (now : String) (o : FetchOutcome)
    (u : UploadChatState) (t : String) (uo : UploadFetchOutcome) :
    (handleSend s now o).2.length ≤ 1
    ∧ (handleSendUpload u t uo).2.length ≤ 1
    ∧ (∀ o2 : FetchOutcome, (handleSend s now o).2 = (handleSend s now o2).2)
    ∧ (∀ uo2 : UploadFetchOutcome,
        (handleSendUpload u t uo).2 = (handleSendUpload u t uo2).2) := by
  refine ⟨?_, ?_, ?_, ?_⟩
  · by_cases h : jsTrim s.newMessage = ""
    · simp [handleSend, h]
    · cases o <;> simp [handleSend, h]
  · by_cases h1 : (jsTrim u.input = "" && u.files.isEmpty) = true
    · simp [handleSendUpload, h1]
    · by_cases h2 : u.attachmentIds.length < u.files.length
      · simp [handleSendUpload, h1, h2]
      · cases uo <;> simp [handleSendUpload, h1, h2]
  · intro o2
    by_cases h : jsTrim s.newMessage = ""
    · simp [handleSend, h]
    · cases o <;> cases o2 <;> simp [handleSend, h]
  · intro uo2
    by_cases h1 : (jsTrim u.input = "" && u.files.isEmpty) = true
    · simp [handleSendUpload, h1]
    · by_cases h2 : u.attachmentIds.length < u.files.length
      · simp [handleSendUpload, h1, h2]
      · cases uo <;> cases uo2 <;> simp [handleSendUpload, h1, h2]

/-- C2 counterexample: the conversation log is not append-only.  With a
prior user message in the log and freshly present questionnaire data, the
questionnaire effect (Chatbot.js lines 70-86, "Clear previous messages when
questionnaire is updated") replaces the whole log with a single system
summary, deleting the previously created message. -/
theorem conversation_log_not_append_only :
    priorUserMsg ∈ [priorUserMsg]
    ∧ priorUserMsg ∉ questionnaireEffect (some qaExample) [] [priorUserMsg] "t1" := by
  constructor
  · exact List.mem_singleton.mpr rfl
  · decide

/-- C2 amended: within a session the chat-turn handlers only append — in
both Chatbot variants `handleSend` leaves the existing log a prefix of the
new log, never deleting, editing or reordering previous messages; the
questionnaire effect, however, may replace the log wholesale (see the
counterexample), so append-only holds for the chat turns, not for every
operation on the message list. -/
theorem chat_turns_only_append (s : ChatState) (now : String) (o : FetchOutcome)
    (u : UploadChatState) (t : String) (uo : UploadFetchOutcome) :
    (∃ tail, (handleSend s now o).1.messages = s.messages ++ tail)
    ∧ (∃ tail, (handleSendUpload u t uo).1.messages = u.messages ++ tail) := by
  constructor
  · by_cases h : jsTrim s.newMessage = ""
    · exact ⟨[], by simp [handleSend, h]⟩
    · cases o with
      | networkError => exact ⟨[userMessageOf s now], by simp [handleSend, h]⟩
      | httpError => exact ⟨[userMessageOf s now], by simp [handleSend, h]⟩
      | success data =>
          exact ⟨[userMessageOf s now, botMessageOf data now], by simp [handleSend, h]⟩
  · by_cases h1 : (jsTrim u.input = "" && u.files.isEmpty) = true
    · exact ⟨[], by simp [handleSendUpload, h1]⟩
    · by_cases h2 : u.attachmentIds.length < u.files.length
      · exact ⟨[], by simp [handleSendUpload, h1, h2]⟩
      · cases uo with
        | networkError m =>
            exact ⟨[uploadUserMessageOf u t, ⟨m, false, true, t, none, none⟩],
              by simp [handleSendUpload, h1, h2]⟩
        | httpError d =>
            exact ⟨[uploadUserMessageOf u t,
              ⟨d.getD "Failed to get response from AI", false, true, t, none, none⟩],
              by simp [handleSendUpload, h1, h2]⟩
        | success data =>
            exact ⟨[uploadUserMessageOf u t,
              ⟨data.response, false, false, t, none, data.processed_attachments⟩],
              by simp [handleSendUpload, h1, h2]⟩

/-- C1: a failed chat turn appends no assistant message.  In the main
Chatbot component, after a failing call the log is exactly the prior log
plus the already-appended user message — the failed call itself changes the
history length by nothing and every bot-typed message of the new log was
already present.  In the attachment-capable variant, the only entry shown
for the failure is the synthetic error-flagged non-user message, never a
fabricated assistant answer. -/
theorem failed_turn_appends_no_assistant_message
    (s : ChatState) (now : String) (o : FetchOutcome)
    (u : UploadChatState) (t : String) (uo : UploadFetchOutcome)
    (hne : jsTrim s.newMessage ≠ "") (hfail : o.failed = true)
    (hug : ¬(jsTrim u.input = "" ∧ u.files = []))
    (hwait : u.files.length ≤ u.attachmentIds.length)
    (hufail : uo.failed = true) :
    (handleSend s now o).1.messages = s.messages ++ [userMessageOf s now]
    ∧ (∀ m ∈ (handleSend s now o).1.messages, m.type = "bot" → m ∈ s.messages)
    ∧ (handleSendUpload u t uo).1.messages
        = u.messages ++ [uploadUserMessageOf u t,
            ⟨uploadErrorText uo, false, true, t, none, none⟩] := by
  have hmain : (handleSend s now o).1.messages = s.messages ++ [userMessageOf s now] := by
    cases o with
    | networkError => simp [handleSend, hne]
    | httpError => simp [handleSend, hne]
    | success data => simp [FetchOutcome.failed] at hfail
  refine ⟨hmain, ?_, ?_⟩
  · intro m hm hbot
    rw [hmain] at hm
    rcases List.mem_append.mp hm with h | h
    · exact h
    · rcases List.mem_singleton.mp h with rfl
      simp [userMessageOf] at hbot
  · have h1 : (jsTrim u.input = "" && u.files.isEmpty) = false := by
      rcases Decidable.em (jsTrim u.input = "") with he | he
      · have : u.files ≠ [] := fun hf => hug ⟨he, hf⟩
        simp [he, List.isEmpty_iff, this]
      · simp [he]
    have h2 : ¬ u.attachmentIds.length < u.files.length := not_lt.mpr hwait
    cases uo with
    | networkError m => simp [handleSendUpload, h1, h2, uploadErrorText]
    | httpError d => simp [handleSendUpload, h1, h2, uploadErrorText]
    | success data => simp [UploadFetchOutcome.failed] at hufail

/-- An upload-variant state with a pending question and no attachments. -/
def pendingUploadState : UploadChatState := ⟨[], "a question", false, [], []⟩

theorem failed_turn_appends_no_assistant_message_witness :
    (jsTrim pendingState.newMessage ≠ ""
     ∧ FetchOutcome.httpError.failed = true
     ∧ ¬(jsTrim pendingUploadState.input = "" ∧ pendingUploadState.files = [])
     ∧ pendingUploadState.files.length ≤ pendingUploadState.attachmentIds.length
     ∧ (UploadFetchOutcome.networkError "boom").failed = true)
    ∧ ((handleSend pendingState "t1" .httpError).1.messages
        = pendingState.messages ++ [userMessageOf pendingState "t1"]
      ∧ (∀ m ∈ (handleSend pendingState "t1" .httpError).1.messages,
          m.type = "bot" → m ∈ pendingState.messages)
      ∧ (handleSendUpload pendingUploadState "t2" (.networkError "boom")).1.messages
          = pendingUploadState.messages ++ [uploadUserMessageOf pendingUploadState "t2",
              ⟨uploadErrorText (.networkError "boom"), false, true, "t2", none, none⟩]) :=
  ⟨by decide,
   failed_turn_appends_no_assistant_message pendingState "t1" .httpError
     pendingUploadState "t2" (.networkError "boom")
     (by decide) (by decide) (by decide) (by decide) (by decide)⟩

/-- The state before turn 1 of the two-turn scenario. -/
def turn1State : ChatState := ⟨[], "first question", false, none, some qaExample, []⟩

/-- The successful response of turn 1. -/
def turn1Response : ChatResponseData := ⟨"unique assistant reply ZXQV", none⟩

/-- The state before turn 2: the log produced by the successful turn 1,
with the next message typed into the input field. -/
def turn2State : ChatState :=
  ⟨(handleSend turn1State "t1" (.success turn1Response)).1.messages,
   "second question", false, none, some qaExample, []⟩

/-- C4 counterexample: in the two-turn scenario, the turn-1 user and
assistant content are present in the session log, yet the serialized
request payload assembled for turn 2 contains neither — the `POST /chat`
body carries only the new message, the questionnaire data and a
has-uploaded-documents flag, no conversation history. -/
theorem turn2_request_omits_turn1_content :
    (∃ m ∈ turn2State.messages, m.content = "unique assistant reply ZXQV")
    ∧ (∃ m ∈ turn2State.messages, m.content = "first question")
    ∧ ((handleSend turn2State "t2" (.success ⟨"r2", none⟩)).2.map jsonBody).all
        (fun b => !(strIncludes b "unique assistant reply ZXQV")
          && !(strIncludes b "first question")) = true := by
  refine ⟨?_, ?_, ?_⟩ <;> decide

/-- C4 amended: the context assembled for a turn is independent of the
conversation history — two invocations of `handleSend` agreeing on the new
message, the questionnaire data and the uploaded documents issue identical
requests, whatever the (different) logs of prior turns contain, so the
assembled context of turn 2 includes nothing of turn 1. -/
theorem assembled_request_independent_of_history
    (s1 s2 : ChatState) (n1 n2 : String) (o1 o2 : FetchOutcome)
    (hm : s1.newMessage = s2.newMessage)
    (hq : s1.questionnaireData = s2.questionnaireData)
    (hd : s1.documents = s2.documents) :
    (handleSend s1 n1 o1).2 = (handleSend s2 n2 o2).2 := by
  have hr : assembleRequest s1 = assembleRequest s2 := by
    simp [assembleRequest, hm, hq, hd]
  have ht : jsTrim s2.newMessage = jsTrim s1.newMessage := by rw [hm]
  by_cases h : jsTrim s1.newMessage = ""
  · simp [handleSend, h, ht]
  · cases o1 <;> cases o2 <;> simp [handleSend, h, ht, hr]

/-- A fresh-session state typing the same turn-2 message with no history. -/
def freshTurn2State : ChatState := ⟨[], "second question", false, none, some qaExample, []⟩

theorem assembled_request_independent_of_history_witness :
    (turn2State.newMessage = freshTurn2State.newMessage
     ∧ turn2State.questionnaireData = freshTurn2State.questionnaireData
     ∧ turn2State.documents = freshTurn2State.documents)
    ∧ (handleSend turn2State "t2" (.success ⟨"r2", none⟩)).2
        = (handleSend freshTurn2State "t9" .networkError).2 :=
  ⟨by decide,
   assembled_request_independent_of_history turn2State freshTurn2State
     "t2" "t9" (.success ⟨"r2", none⟩) .networkError (by decide) (by decide) (by decide)⟩

/-- C9: determinism of context assembly — for two invocations with
identical inputs (message, questionnaire context, documents, history), the
serialized request payloads are identical byte-for-byte, independently of
timestamps and call outcomes. -/
theorem context_assembly_deterministic
    (s1 s2 : ChatState) (n1 n2 : String) (o1 o2 : FetchOutcome)
    (hm : s1.newMessage = s2.newMessage)
    (hq : s1.questionnaireData = s2.questionnaireData)
    (hd : s1.documents = s2.documents)
    (hh : s1.messages = s2.messages) :
    ((handleSend s1 n1 o1).2.map jsonBody)
      = ((handleSend s2 n2 o2).2.map jsonBody) := by
  have hr : assembleRequest s1 = assembleRequest s2 := by
    simp [assembleRequest, hm, hq, hd]
  have ht : jsTrim s2.newMessage = jsTrim s1.newMessage := by rw [hm]
  by_cases h : jsTrim s1.newMessage = ""
  · simp [handleSend, h, ht]
  · cases o1 <;> cases o2 <;> simp [handleSend, h, ht, hr]

theorem context_assembly_deterministic_witness :
    (pendingState.newMessage = pendingState.newMessage
     ∧ pendingState.questionnaireData = pendingState.questionnaireData
     ∧ pendingState.documents = pendingState.documents
     ∧ pendingState.messages = pendingState.messages)
    ∧ ((handleSend pendingState "t1" .httpError).2.map jsonBody)
        = ((handleSend pendingState "t2" (.success ⟨"ok", none⟩)).2.map jsonBody) :=
  ⟨by decide,
   context_assembly_deterministic pendingState pendingState "t1" "t2"
     .httpError (.success ⟨"ok", none⟩) rfl rfl rfl rfl⟩

/-- C10: an input that is empty after trimming but accompanied by
attachments whose uploads have completed is not rejected: the synthetic
message "Please analyze the attached document." becomes the user message
appended to the log and is sent to the chat endpoint together with the
attachment ids. -/
theorem empty_input_with_attachments_sends
    (u : UploadChatState) (t : String) (uo : UploadFetchOutcome)
    (hempty : jsTrim u.input = "") (hfiles : u.files ≠ [])
    (hdone : u.files.length ≤ u.attachmentIds.length) :
    (handleSendUpload u t uo).2 = [⟨analyzeAttachmentText, [], u.attachmentIds⟩]
    ∧ ∃ rest, (handleSendUpload u t uo).1.messages
        = u.messages
          ++ ⟨analyzeAttachmentText, true, false, t, some u.files, none⟩ :: rest := by
  have h1 : (jsTrim u.input = "" && u.files.isEmpty) = false := by
    simp [hempty, List.isEmpty_iff, hfiles]
  have h2 : ¬ u.attachmentIds.length < u.files.length := not_lt.mpr hdone
  have huser : uploadUserMessageOf u t
      = ⟨analyzeAttachmentText, true, false, t, some u.files, none⟩ := by
    simp [uploadUserMessageOf, uploadUserText, hempty]
  have htext : uploadUserText u = analyzeAttachmentText := by
    simp [uploadUserText, hempty]
  cases uo with
  | networkError m =>
      refine ⟨by simp [handleSendUpload, h1, h2, htext], ⟨[⟨m, false, true, t, none, none⟩], ?_⟩⟩
      simp [handleSendUpload, h1, h2, huser]
  | httpError d =>
      refine ⟨by simp [handleSendUpload, h1, h2, htext],
        ⟨[⟨d.getD "Failed to get response from AI", false, true, t, none, none⟩], ?_⟩⟩
      simp [handleSendUpload, h1, h2, huser]
  | success data =>
      refine ⟨by simp [handleSendUpload, h1, h2, htext],
        ⟨[⟨data.response, false, false, t, none, data.processed_attachments⟩], ?_⟩⟩
      simp [handleSendUpload, h1, h2, huser]

/-- An upload-variant state with a blank input and one finished upload. -/
def attachmentOnlyState : UploadChatState := ⟨[], " ", false, ["report.pdf"], ["id-1"]⟩

theorem empty_input_with_attachments_sends_witness :
    (jsTrim attachmentOnlyState.input = ""
     ∧ attachmentOnlyState.files ≠ []
     ∧ attachmentOnlyState.files.length ≤ attachmentOnlyState.attachmentIds.length)
    ∧ ((handleSendUpload attachmentOnlyState "t1" (.success ⟨"done", none⟩)).2
        = [⟨analyzeAttachmentText, [], attachmentOnlyState.attachmentIds⟩]
      ∧ ∃ rest, (handleSendUpload attachmentOnlyState "t1" (.success ⟨"done", none⟩)).1.messages
          = attachmentOnlyState.messages
            ++ ⟨analyzeAttachmentText, true, false, "t1", some attachmentOnlyState.files, none⟩ :: rest) :=
  ⟨by decide,
   empty_input_with_attachments_sends attachmentOnlyState "t1" (.success ⟨"done", none⟩)
     (by decide) (by decide) (by decide)⟩

/-! ## Sorting lemmas for the matcher -/

theorem mem_insertByScore {x z : ScoredDoc} {l : List ScoredDoc} :
    z ∈ insertByScore x l ↔ z = x ∨ z ∈ l := by
  induction l with
  | nil => simp [insertByScore]
  | cons y ys ih =>
    simp only [insertByScore]
    split
    · simp only [List.mem_cons, ih]
      tauto
    · simp only [List.mem_cons]

theorem pairwise_insertByScore {x : ScoredDoc} {l : List ScoredDoc}
    (h : l.Pairwise (fun a b => b.relevance_score ≤ a.relevance_score)) :
    (insertByScore x l).Pairwise (fun a b => b.relevance_score ≤ a.relevance_score) := by
  induction l with
  | nil => simp [insertByScore]
  | cons y ys ih =>
    rcases List.pairwise_cons.mp h with ⟨hy, hys⟩
    simp only [insertByScore]
    split
    · rename_i hlt
      refine List.pairwise_cons.mpr ⟨?_, ih hys⟩
      intro z hz
      rcases mem_insertByScore.mp hz with rfl | hz'
      · exact le_of_lt hlt
      · exact hy z hz'
    · rename_i hnlt
      refine List.pairwise_cons.mpr ⟨?_, h⟩
      intro z hz
      rcases List.mem_cons.mp hz with rfl | hz'
      · exact not_lt.mp hnlt
      · exact le_trans (hy z hz') (not_lt.mp hnlt)

theorem pairwise_sortByScoreDesc (l : List ScoredDoc) :
    (sortByScoreDesc l).Pairwise (fun a b => b.relevance_score ≤ a.relevance_score) := by
  induction l with
  | nil => simp [sortByScoreDesc]
  | cons x xs ih => exact pairwise_insertByScore ih

theorem filter_insertByScore (x : ScoredDoc) (l : List ScoredDoc) (c : Rat) :
    (insertByScore x l).filter (fun d => decide (d.relevance_score = c))
      = if x.relevance_score = c
        then x :: l.filter (fun d => decide (d.relevance_score = c))
        else l.filter (fun d => decide (d.relevance_score = c)) := by
  induction l with
  | nil =>
    simp only [insertByScore]
    by_cases hx : x.relevance_score = c <;> simp [hx]
  | cons y ys ih =>
    simp only [insertByScore]
    split
    · rename_i hlt
      by_cases hx : x.relevance_score = c
      · have hy : ¬ y.relevance_score = c := by
          rw [← hx]
          exact ne_of_gt hlt
        simp [List.filter_cons, hy, ih, hx]
      · simp [List.filter_cons, ih, hx]
    · by_cases hx : x.relevance_score = c <;> simp [List.filter_cons, hx]

/-- Stability of the descending sort: for every score value, the documents
carrying that score appear in the sorted output in exactly their order in
the retrieval result. -/
theorem filter_sortByScoreDesc (l : List ScoredDoc) (c : Rat) :
    (sortByScoreDesc l).filter (fun d => decide (d.relevance_score = c))
      = l.filter (fun d => decide (d.relevance_score = c)) := by
  induction l with
  | nil => rfl
  | cons x xs ih =>
    simp only [sortByScoreDesc, filter_insertByScore, List.filter_cons]
    by_cases hx : x.relevance_score = c <;> simp [hx, ih]

/-- The scored retrieval result for a query: the corpus in store order,
each document paired with its similarity score. -/
def retrievalOf (score : String → GuidelineDocument → Rat)
    (corpus : List GuidelineDocument) (qa : QuestionnaireAnswers) :
    List ScoredDoc :=
  corpus.map (fun d => ⟨d, score (buildQuery qa) d⟩)

/-- C5: for valid questionnaire answers the Guideline Matcher returns at
most K documents (K a configuration option, default 5), in non-increasing
relevance-score order, and equal scores keep the insertion order of the
underlying retrieval call. -/
theorem matcher_topk_sorted
    (k : Nat) (score : String → GuidelineDocument → Rat)
    (corpus : List GuidelineDocument) (qa : QuestionnaireAnswers)
    (res : List ScoredDoc)
    (hres : matchGuidelines k score corpus qa = .ok res) :
    res.length ≤ k
    ∧ res.Pairwise (fun a b => b.relevance_score ≤ a.relevance_score)
    ∧ res = (sortByScoreDesc (retrievalOf score corpus qa)).take k
    ∧ ∀ c : Rat,
        (sortByScoreDesc (retrievalOf score corpus qa)).filter
            (fun d => decide (d.relevance_score = c))
          = (retrievalOf score corpus qa).filter
            (fun d => decide (d.relevance_score = c)) := by
  have hok : res = (sortByScoreDesc (retrievalOf score corpus qa)).take k := by
    unfold matchGuidelines at hres
    by_cases hv : validQA qa = true
    · by_cases hc : corpus.isEmpty = true
      · simp [hv, hc] at hres
      · simp only [hv, Bool.not_true, Bool.false_eq_true, if_false, hc] at hres
        exact ((Except.ok.injEq _ _).mp hres).symm
    · simp [hv] at hres
  refine ⟨?_, ?_, hok, fun c => filter_sortByScoreDesc _ c⟩
  · rw [hok]
    exact List.length_take_le _ _
  · rw [hok]
    exact (pairwise_sortByScoreDesc _).sublist (List.take_sublist _ _)

/-- Corpus documents used in the matcher witness. -/
def docClassification : GuidelineDocument :=
  ⟨"d1", "Medical Device Classification Guidelines", "Classification rules", "EU MDR 2017/745"⟩

/-- Second corpus document used in the matcher witness. -/
def docSterilization : GuidelineDocument :=
  ⟨"d2", "Sterilization Requirements", "Sterilization processes", "ISO 11135"⟩

/-- A concrete similarity collaborator for the witness. -/
def exScore : String → GuidelineDocument → Rat :=
  fun _ d => if d.id = "d1" then 1 else 0

theorem matcher_topk_sorted_witness :
    matchGuidelines 5 exScore [docSterilization, docClassification] qaExample
        = .ok [⟨docClassification, 1⟩, ⟨docSterilization, 0⟩]
    ∧ (([⟨docClassification, 1⟩, ⟨docSterilization, 0⟩] : List ScoredDoc).length ≤ 5
      ∧ ([⟨docClassification, 1⟩, ⟨docSterilization, 0⟩] : List ScoredDoc).Pairwise
          (fun a b => b.relevance_score ≤ a.relevance_score)
      ∧ [⟨docClassification, 1⟩, ⟨docSterilization, 0⟩]
          = (sortByScoreDesc (retrievalOf exScore [docSterilization, docClassification] qaExample)).take 5
      ∧ ∀ c : Rat,
          (sortByScoreDesc (retrievalOf exScore [docSterilization, docClassification] qaExample)).filter
              (fun d => decide (d.relevance_score = c))
            = (retrievalOf exScore [docSterilization, docClassification] qaExample).filter
              (fun d => decide (d.relevance_score = c))) :=
  ⟨by rfl,
   matcher_topk_sorted 5 exScore [docSterilization, docClassification] qaExample
     [⟨docClassification, 1⟩, ⟨docSterilization, 0⟩] (by rfl)⟩

/-- C6: for every valid questionnaire input, the matcher on an empty
document store fails with `NoCorpusAvailable` and never returns a success
list (empty or otherwise). -/
theorem empty_corpus_fails_noCorpusAvailable
    (k : Nat) (score : String → GuidelineDocument → Rat)
    (qa : QuestionnaireAnswers) (hv : validQA qa = true) :
    matchGuidelines k score [] qa = .error .noCorpusAvailable
    ∧ ∀ res : List ScoredDoc, matchGuidelines k score [] qa ≠ .ok res := by
  constructor
  · simp [matchGuidelines, hv]
  · intro res h
    simp [matchGuidelines, hv] at h

theorem empty_corpus_fails_noCorpusAvailable_witness :
    validQA qaExample = true
    ∧ (matchGuidelines 5 exScore [] qaExample = .error .noCorpusAvailable
      ∧ ∀ res : List ScoredDoc, matchGuidelines 5 exScore [] qaExample ≠ .ok res) :=
  ⟨by decide, empty_corpus_fails_noCorpusAvailable 5 exScore qaExample (by decide)⟩

/-- C7: a file whose size exceeds 10 MB or whose extension is not one of
.pdf, .doc, .docx, .txt is rejected by the guards of the upload handler before
any request is made: the attachment store put is never invoked and the
surfaced outcome is the corresponding validation error. -/
theorem invalid_attachment_rejected_before_put
    (form : UploadForm) (f : FileInfo) (resp : UploadResponse)
    (hf : form.file = some f)
    (hbad : f.size > maxFileSize ∨ allowedTypes.contains (fileExtension f.name) = false) :
    (handleUpload form resp).2 = false
    ∧ ((handleUpload form resp).1 = .fileTooLarge
        ∨ (handleUpload form resp).1 = .invalidType) := by
  rcases hbad with h | h
  · simp [handleUpload, hf, h]
  · have h' : fileExtension f.name ∉ allowedTypes := by simpa using h
    by_cases hs : f.size > maxFileSize
    · simp [handleUpload, hf, hs]
    · simp [handleUpload, hf, hs, h']

/-- A not-accepted upload: the extension .zip is not among the allowed types. -/
def zipUploadForm : UploadForm := ⟨"Archive", "", some ⟨"Evidence.ZIP", 2048⟩⟩

theorem invalid_attachment_rejected_before_put_witness :
    (zipUploadForm.file = some ⟨"Evidence.ZIP", 2048⟩
     ∧ allowedTypes.contains (fileExtension "Evidence.ZIP") = false)
    ∧ ((handleUpload zipUploadForm .httpOk).2 = false
      ∧ ((handleUpload zipUploadForm .httpOk).1 = .fileTooLarge
          ∨ (handleUpload zipUploadForm .httpOk).1 = .invalidType)) :=
  ⟨by decide,
   invalid_attachment_rejected_before_put zipUploadForm ⟨"Evidence.ZIP", 2048⟩ .httpOk
     (by decide) (Or.inr (by decide))⟩

end BiotechReg
